import Mathlib

/-!
Verification of the negotiation-agent repository.

The development shallowly embeds the two Python source files:

* `negotiation_agent_code_warriors.py` : the deterministic buyer agent
  (`YourBuyerAgent`), the mock seller (`MockSellerAgent`) and the driver
  (`run_negotiation_test`).  Embedded below in namespaces `Buyer`,
  `MockSellerAgent`, and the top-level driver definitions.
* `buyer_agent_team_code_warriors.py` : the LLM-backed buyer agent
  (`YourBuyerAgent` of that file), embedded in namespace `Team`.

Modelling choices, all taken from the source:

* Prices, budgets and round numbers are Python non-negative integers and are
  modelled as `ℕ` (the data model declares them positive integers; Python
  integer `min`, `max`, `+`, `-` on non-negative operands coincide with `ℕ`
  operations, and `seller_price - 1` occurs under `min` so the `ℕ` truncation
  at `seller_price = 0` is irrelevant to every statement proved below).
* The source multiplies integers by Python float literals (for example
  `int(buyer_offer * 1.15)` or `seller_price <= base_market_price * 0.9`).
  These are IEEE-754 binary64 operations and their rounding is observable
  (for example `int(20 * 1.15) = 22`).  They are embedded exactly: each
  float literal is stored as its exact dyadic value `s / 2 ^ t`
  (the binary64 nearest value of the decimal literal), the product with an
  integer below `2 ^ 53` is rounded to 53 significant bits with
  round-to-nearest, ties-to-even (`rne53`), which is exactly the binary64
  multiplication for the magnitudes occurring here (no overflow, no
  subnormals), and `int(...)` truncation of the non-negative result is
  floor (`pyIntMul`).  Comparisons between a Python int and a float compare
  exact values, embedded as exact rational comparisons on the dyadic value
  (`leMul`, `geMul`).
* Negotiation messages carry no decision logic; every claim is about the
  numeric protocol.  Messages are embedded as an inductive type `Msg`
  recording which source template produced the message together with all
  numeric data and, for `mirror_and_frame`, the random template index
  (`random.choice` over three templates) and the mirrored seller message.
  The literal message texts are abstracted away.
* The `ollama.chat` calls of the team agent are modelled by a parameter of
  type `Option ChatOut`: `none` means the call raised (service unavailable
  or errored), in which case the Python exception propagates, modelled by
  `Except.error ()`; `some t` means the call returned text from which the
  regular-expression extractions produced `t.amount` (the digits captured by
  the `offer_amount:`/`counter_offer:` pattern, `none` when the pattern is
  absent) and `t.msg` (the `message:` capture).
* The float divisions in the result record (`savings_pct`,
  `below_market_pct`) are modelled as exact rational division; no claim
  depends on their rounding.
-/

/-! Exact binary64 multiplication by a float literal -/

/-- Fuel-driven bit length so that kernel reduction works by `decide`. -/
def bitlenAux : ℕ → ℕ → ℕ
  | 0, _ => 0
  | fuel + 1, n => if n = 0 then 0 else bitlenAux fuel (n / 2) + 1

/-- Number of binary digits of `n` (0 for 0). -/
def bitlen (n : ℕ) : ℕ := bitlenAux n n

/-- Round the integer `p` to 53 significant bits with round-to-nearest,
ties-to-even.  Returns `(m, d)` with rounded value `m * 2 ^ d`. -/
def rne53 (p : ℕ) : ℕ × ℕ :=
  if bitlen p ≤ 53 then (p, 0)
  else
    let d := bitlen p - 53
    let m0 := p / 2 ^ d
    let r := p % 2 ^ d
    let half := 2 ^ (d - 1)
    if r < half then (m0, d)
    else if half < r then (m0 + 1, d)
    else if m0 % 2 = 0 then (m0, d) else (m0 + 1, d)

/-- A float literal of the source, stored as its exact binary64 value
`c.1 / 2 ^ c.2`. -/
abbrev FloatLit := ℕ × ℕ

/-- Numerator of the exact binary64 product `n * c`: the product float equals
`fmulNum n c / 2 ^ c.2`.  This is IEEE binary64 multiplication of the exact
integer `n < 2 ^ 53` with the literal `c` (single rounding of the exact
product to 53 significant bits, round-to-nearest ties-to-even). -/
def fmulNum (n : ℕ) (c : FloatLit) : ℕ :=
  let m := rne53 (n * c.1)
  m.1 * 2 ^ m.2

/-- Python `int(n * c)` for a non-negative int `n` and float literal `c`:
truncation of the product float toward zero, which is floor here. -/
def pyIntMul (n : ℕ) (c : FloatLit) : ℕ := fmulNum n c / 2 ^ c.2

/-- Python comparison `p <= n * c` (int versus float, compared exactly). -/
def leMul (p n : ℕ) (c : FloatLit) : Bool := decide (p * 2 ^ c.2 ≤ fmulNum n c)

/-- Python comparison `p >= n * c` (int versus float, compared exactly). -/
def geMul (p n : ℕ) (c : FloatLit) : Bool := decide (fmulNum n c ≤ p * 2 ^ c.2)

/-- Binary64 value of the literal `1.5` (exact). -/
def lit_1_5 : FloatLit := (3, 1)

/-- Binary64 value of the literal `0.65`. -/
def lit_0_65 : FloatLit := (5854679515581645, 53)

/-- Binary64 value of the literal `0.9`. -/
def lit_0_9 : FloatLit := (8106479329266893, 53)

/-- Binary64 value of the literal `0.05`. -/
def lit_0_05 : FloatLit := (3602879701896397, 56)

/-- Binary64 value of the literal `0.1`. -/
def lit_0_1 : FloatLit := (3602879701896397, 55)

/-- Binary64 value of the literal `0.15`. -/
def lit_0_15 : FloatLit := (5404319552844595, 55)

/-- Binary64 value of the literal `1.1`. -/
def lit_1_1 : FloatLit := (2476979795053773, 51)

/-- Binary64 value of the literal `1.15`. -/
def lit_1_15 : FloatLit := (2589569785738035, 51)

/-- Binary64 value of the literal `1.05`. -/
def lit_1_05 : FloatLit := (4728779608739021, 52)

/-- Binary64 value of the literal `0.8`. -/
def lit_0_8 : FloatLit := (3602879701896397, 52)

/-! Data model (PART 1 of both source files) -/

/-- Source dataclass `Product`; the field `attributes` (`Dict[str, Any]`) is modelled as an
association list of strings; no code under test reads it. -/
structure Product where
  name : String
  category : String
  quantity : ℕ
  quality_grade : String
  origin : String
  base_market_price : ℕ
  attributes : List (String × String)

/-- Source enumeration `DealStatus`. -/
inductive DealStatus where
  | ongoing
  | accepted
  | rejected
  | timeout
deriving DecidableEq

/-- Abstracted negotiation message: which source template produced it plus
all numeric data.  `mirror_frame` records the mirrored seller message, the
`random.choice` template index, and the counter offer; `time_pressure` is
the late-round suffix appended by the deterministic buyer. `team_text`
carries the `message:` extraction of the team agent (`none` = the default
local message). -/
inductive Msg where
  | seller_opening (quality name : String) (price : ℕ)
  | seller_deal (price : ℕ)
  | seller_final_offer (price : ℕ)
  | seller_come_down (price : ℕ)
  | buyer_opening (price : ℕ)
  | buyer_accept (price : ℕ)
  | mirror_frame (seller_message : Msg) (template : Fin 3) (counter_offer : ℕ)
  | time_pressure (base : Msg)
  | team_accept (price : ℕ)
  | team_fallback_accept (price : ℕ)
  | team_text (raw : Option String)
deriving DecidableEq

/-- Source dataclass `NegotiationContext`. -/
structure NegotiationContext where
  product : Product
  your_budget : ℕ
  current_round : ℕ
  seller_offers : List ℕ
  your_offers : List ℕ
  messages : List (String × Msg)

/-! Deterministic buyer agent (`YourBuyerAgent` of
`negotiation_agent_code_warriors.py`).  The `random.choice` of
`mirror_and_frame` is modelled by a choice stream `ℕ → Fin 3` indexed by the
current round (the deterministic agent calls it at most once per round). -/

namespace Buyer

/-- Source `anchor_opening_offer`: `min(int(base_market_price * 0.65), your_budget)`. -/
def anchor_opening_offer (context : NegotiationContext) : ℕ :=
  min (pyIntMul context.product.base_market_price lit_0_65) context.your_budget

/-- Source `generate_opening_offer`: the anchor price and an opening message. -/
def generate_opening_offer (context : NegotiationContext) : ℕ × Msg :=
  let opening_price := anchor_opening_offer context
  (opening_price, Msg.buyer_opening opening_price)

/-- Source `evaluate_batna`: `seller_price <= base_market_price * 0.9 and
seller_price <= your_budget`. -/
def evaluate_batna (context : NegotiationContext) (seller_price : ℕ) : Bool :=
  leMul seller_price context.product.base_market_price lit_0_9 &&
    decide (seller_price ≤ context.your_budget)

/-- Source `concession_pattern`: last own offer (or budget) plus a round-scaled
concession, clamped to the budget and to `seller_price - 1`. -/
def concession_pattern (context : NegotiationContext) (seller_price : ℕ) : ℕ :=
  let last_offer := context.your_offers.getLast?.getD context.your_budget
  let concession :=
    if context.current_round < 3 then pyIntMul seller_price lit_0_05
    else if context.current_round < 7 then pyIntMul seller_price lit_0_1
    else pyIntMul seller_price lit_0_15
  let counter_offer := min (last_offer + concession) context.your_budget
  min counter_offer (seller_price - 1)

/-- Source `mirror_and_frame`: builds one of three message templates chosen by
`random.choice`; only the message text depends on the choice and on the
seller message (key-phrase mirroring). -/
def mirror_and_frame (choice : Fin 3) (seller_message : Msg)
    (counter_offer : ℕ) : Msg :=
  Msg.mirror_frame seller_message choice counter_offer

/-- Source `respond_to_seller_offer`: accept when `evaluate_batna` holds and the
price is at most 90 percent of market (the source checks the 0.9 bound twice,
once inside `evaluate_batna` and once again); otherwise counter with
`concession_pattern`, appending a time-pressure suffix from round 8 on. -/
def respond_to_seller_offer (choice : ℕ → Fin 3) (context : NegotiationContext)
    (seller_price : ℕ) (seller_message : Msg) : DealStatus × ℕ × Msg :=
  if evaluate_batna context seller_price = true ∧
      leMul seller_price context.product.base_market_price lit_0_9 = true then
    (DealStatus.accepted, seller_price, Msg.buyer_accept seller_price)
  else
    let counter_offer := concession_pattern context seller_price
    let response_msg :=
      mirror_and_frame (choice context.current_round) seller_message counter_offer
    let response_msg :=
      if 8 ≤ context.current_round then Msg.time_pressure response_msg
      else response_msg
    (DealStatus.ongoing, counter_offer, response_msg)

end Buyer

/-! Mock seller (`MockSellerAgent`, identical in both files) -/

namespace MockSellerAgent

/-- Source `get_opening_price`: `int(base_market_price * 1.5)` with an opening
message. -/
def get_opening_price (product : Product) : ℕ × Msg :=
  let price := pyIntMul product.base_market_price lit_1_5
  (price, Msg.seller_opening product.quality_grade product.name price)

/-- Source `respond_to_buyer`: accept at `buyer_offer >= min_price * 1.1`;
otherwise counter with `max(min_price, int(buyer_offer * g))` where `g` is
1.05 from `round_num >= 8` (the loop index passed by the driver) and 1.15
before. -/
def respond_to_buyer (min_price buyer_offer round_num : ℕ) : ℕ × Msg × Bool :=
  if geMul buyer_offer min_price lit_1_1 = true then
    (buyer_offer, Msg.seller_deal buyer_offer, true)
  else if 8 ≤ round_num then
    let counter := max min_price (pyIntMul buyer_offer lit_1_05)
    (counter, Msg.seller_final_offer counter, false)
  else
    let counter := max min_price (pyIntMul buyer_offer lit_1_15)
    (counter, Msg.seller_come_down counter, false)

end MockSellerAgent

/-! Driver (`run_negotiation_test` of `negotiation_agent_code_warriors.py`,
running the deterministic buyer against the mock seller) -/

/-- One buyer turn of the driver loop: the opening offer on loop index 0
(status forced to `ONGOING`), `respond_to_seller_offer` afterwards. -/
def buyer_turn (choice : ℕ → Fin 3) (round_num : ℕ)
    (context : NegotiationContext) (seller_price : ℕ) (seller_msg : Msg) :
    DealStatus × ℕ × Msg :=
  if round_num = 0 then
    let om := Buyer.generate_opening_offer context
    (DealStatus.ongoing, om.1, om.2)
  else Buyer.respond_to_seller_offer choice context seller_price seller_msg

/-- Embeds the `for round_num in range(10)` loop of `run_negotiation_test`,
recursing over the list of remaining loop indices.  Returns the final
context, the `deal_made` flag and `final_price`. -/
def runLoop (choice : ℕ → Fin 3) (seller_min : ℕ) :
    List ℕ → NegotiationContext → ℕ → Msg →
    NegotiationContext × Bool × Option ℕ
  | [], context, _, _ => (context, false, none)
  | round_num :: rest, context, seller_price, seller_msg =>
    let ctx1 := { context with current_round := round_num + 1 }
    let step := buyer_turn choice round_num ctx1 seller_price seller_msg
    let ctx2 := { ctx1 with
      your_offers := ctx1.your_offers ++ [step.2.1],
      messages := ctx1.messages ++ [("buyer", step.2.2)] }
    if step.1 = DealStatus.accepted then (ctx2, true, some seller_price)
    else
      let sr := MockSellerAgent.respond_to_buyer seller_min step.2.1 round_num
      if sr.2.2 = true then
        ({ ctx2 with messages := ctx2.messages ++ [("seller", sr.2.1)] },
          true, some step.2.1)
      else
        runLoop choice seller_min rest
          { ctx2 with
            seller_offers := ctx2.seller_offers ++ [sr.1],
            messages := ctx2.messages ++ [("seller", sr.2.1)] }
          sr.1 sr.2.1

/-- Session setup and loop of `run_negotiation_test`: initial context with
round counter 0, the seller opening recorded, then the round loop. -/
def runSession (choice : ℕ → Fin 3) (product : Product)
    (buyer_budget seller_min : ℕ) : NegotiationContext × Bool × Option ℕ :=
  let opening := MockSellerAgent.get_opening_price product
  runLoop choice seller_min (List.range 10)
    { product := product, your_budget := buyer_budget, current_round := 0,
      seller_offers := [opening.1], your_offers := [],
      messages := [("seller", opening.2)] }
    opening.1 opening.2

/-- Result record of `run_negotiation_test`.  `savings` is Python integer
subtraction (modelled in `ℤ`); the two percentage fields are float divisions
modelled as exact rationals. -/
structure Result where
  deal_made : Bool
  final_price : Option ℕ
  rounds : ℕ
  savings : ℤ
  savings_pct : ℚ
  below_market_pct : ℚ
  conversation : List (String × Msg)

/-- Source `run_negotiation_test` for the deterministic buyer agent: run the
session and compute the summary record. -/
def run_negotiation_test (choice : ℕ → Fin 3) (product : Product)
    (buyer_budget seller_min : ℕ) : Result :=
  { deal_made := (runSession choice product buyer_budget seller_min).2.1
    final_price := (runSession choice product buyer_budget seller_min).2.2
    rounds := (runSession choice product buyer_budget seller_min).1.current_round
    savings :=
      if (runSession choice product buyer_budget seller_min).2.1 = true then
        (buyer_budget : ℤ) -
          ((runSession choice product buyer_budget seller_min).2.2.getD 0 : ℤ)
      else 0
    savings_pct :=
      if (runSession choice product buyer_budget seller_min).2.1 = true then
        ((buyer_budget : ℚ) -
          ((runSession choice product buyer_budget seller_min).2.2.getD 0 : ℚ))
          / (buyer_budget : ℚ) * 100
      else 0
    below_market_pct :=
      if (runSession choice product buyer_budget seller_min).2.1 = true then
        ((product.base_market_price : ℚ) -
          ((runSession choice product buyer_budget seller_min).2.2.getD 0 : ℚ))
          / (product.base_market_price : ℚ) * 100
      else 0
    conversation := (runSession choice product buyer_budget seller_min).1.messages }

/-! Team buyer agent (`YourBuyerAgent` of
`buyer_agent_team_code_warriors.py`) -/

/-- Model of one `ollama.chat` response text through the two
regular-expression extractions the source applies to it: `amount` is the
number captured by `offer_amount:`/`counter_offer:` (absent when the pattern
does not match) and `msg` the `message:` capture. -/
structure ChatOut where
  amount : Option ℕ
  msg : Option String
deriving DecidableEq

deriving instance DecidableEq for Except

namespace Team

/-- Team agent `generate_opening_offer`.  The chat call happens
first: `none` (call raised) propagates the exception.  Otherwise the offer
is the extracted amount clamped to the budget, or the local fallback
`int(base_market_price * 0.8)` when the pattern is absent. -/
def generate_opening_offer (context : NegotiationContext) :
    Option ChatOut → Except Unit (ℕ × Msg)
  | none => Except.error ()
  | some text =>
    let offer_amount :=
      match text.amount with
      | some a => min a context.your_budget
      | none => pyIntMul context.product.base_market_price lit_0_8
    Except.ok (offer_amount, Msg.team_text text.msg)

/-- Team agent `respond_to_seller_offer`.  The chat call happens
first (`none` raises).  Acceptance (nested source conditionals, written as
one conjunction): price within budget and at most 90 percent of market
before round 8, at most market from round 8 on.  Otherwise the counter is
the extracted amount clamped to the budget, or the unclamped local fallback
`int(base_market_price * 0.9)`; at round 10 an affordable price is accepted
unconditionally. -/
def respond_to_seller_offer (context : NegotiationContext)
    (seller_price : ℕ) :
    Option ChatOut → Except Unit (DealStatus × ℕ × Msg)
  | none => Except.error ()
  | some text =>
    if seller_price ≤ context.your_budget ∧
        ((context.current_round < 8 ∧
            leMul seller_price context.product.base_market_price lit_0_9 = true) ∨
          (8 ≤ context.current_round ∧
            seller_price ≤ context.product.base_market_price)) then
      Except.ok (DealStatus.accepted, seller_price,
        Msg.team_accept seller_price)
    else
      let counter_offer :=
        match text.amount with
        | some c => min c context.your_budget
        | none => pyIntMul context.product.base_market_price lit_0_9
      if 10 ≤ context.current_round ∧ seller_price ≤ context.your_budget then
        Except.ok (DealStatus.accepted, seller_price,
          Msg.team_fallback_accept seller_price)
      else
        Except.ok (DealStatus.ongoing, counter_offer, Msg.team_text text.msg)

end Team

/-! Shared concrete inputs for witnesses and counterexamples -/

/-- The constant choice stream (template 0 every round). -/
def chZero : ℕ → Fin 3 := fun _ => 0

/-- A product with the given market price (string fields as in the Alphonso
test product; they carry no decision logic). -/
def sampleProduct (market : ℕ) : Product :=
  { name := "Alphonso Mangoes", category := "Mangoes", quantity := 100,
    quality_grade := "A", origin := "Ratnagiri",
    base_market_price := market, attributes := [] }

/-- Agreement of two contexts on every field except `messages`. -/
def CoreEq (c1 c2 : NegotiationContext) : Prop :=
  c1.product = c2.product ∧ c1.your_budget = c2.your_budget ∧
    c1.current_round = c2.current_round ∧
    c1.seller_offers = c2.seller_offers ∧ c1.your_offers = c2.your_offers

/-! Concrete contexts for witnesses and counterexamples -/

/-- Context for the C2 witness: market 100000, budget 100000, round 2. -/
def ctxW2 : NegotiationContext :=
  { product := sampleProduct 100000, your_budget := 100000,
    current_round := 2, seller_offers := [150000], your_offers := [65000],
    messages := [] }

/-- Context for the C2 counterexample: market 100000, budget 150000,
round 10. -/
def ctxC2 : NegotiationContext :=
  { product := sampleProduct 100000, your_budget := 150000,
    current_round := 10, seller_offers := [], your_offers := [],
    messages := [] }

/-- Context for the C4 witness: market 180000, budget 216000, round 2,
one previous own offer 117000. -/
def ctxW4 : NegotiationContext :=
  { product := sampleProduct 180000, your_budget := 216000,
    current_round := 2, seller_offers := [270000], your_offers := [117000],
    messages := [] }

/-- Context for the C4 counterexample: market 200000, budget 100000,
round 3. -/
def ctxC4 : NegotiationContext :=
  { product := sampleProduct 200000, your_budget := 100000,
    current_round := 3, seller_offers := [], your_offers := [],
    messages := [] }

/-- Context for the C6 witness: market 100000, budget 150000, round 10. -/
def ctxW6 : NegotiationContext :=
  { product := sampleProduct 100000, your_budget := 150000,
    current_round := 10, seller_offers := [], your_offers := [],
    messages := [] }

/-- Context for the C6 counterexample: market 100000, budget 100000,
round 10, one previous own offer 90000. -/
def ctxC6 : NegotiationContext :=
  { product := sampleProduct 100000, your_budget := 100000,
    current_round := 10, seller_offers := [], your_offers := [90000],
    messages := [] }

/-- Context for C7: market 200000, budget 300000, round 2. -/
def ctxC7 : NegotiationContext :=
  { product := sampleProduct 200000, your_budget := 300000,
    current_round := 2, seller_offers := [], your_offers := [],
    messages := [] }

/-! Basic lemmas about the deterministic buyer -/

theorem Buyer.evaluate_batna_budget (context : NegotiationContext)
    (seller_price : ℕ) (h : Buyer.evaluate_batna context seller_price = true) :
    seller_price ≤ context.your_budget := by
  unfold Buyer.evaluate_batna at h
  rw [Bool.and_eq_true] at h
  exact of_decide_eq_true h.2

theorem Buyer.concession_le_budget (context : NegotiationContext)
    (seller_price : ℕ) :
    Buyer.concession_pattern context seller_price ≤ context.your_budget := by
  unfold Buyer.concession_pattern
  exact le_trans (min_le_left _ _) (min_le_right _ _)

theorem Buyer.concession_lt (context : NegotiationContext)
    (seller_price : ℕ) (h : 1 ≤ seller_price) :
    Buyer.concession_pattern context seller_price < seller_price := by
  have h1 : Buyer.concession_pattern context seller_price ≤ seller_price - 1 := by
    unfold Buyer.concession_pattern
    exact min_le_right _ _
  omega

theorem Buyer.respond_offer_le (choice : ℕ → Fin 3)
    (context : NegotiationContext) (seller_price : ℕ) (seller_message : Msg) :
    (Buyer.respond_to_seller_offer choice context seller_price
      seller_message).2.1 ≤ context.your_budget := by
  unfold Buyer.respond_to_seller_offer
  split
  case isTrue h => exact Buyer.evaluate_batna_budget _ _ h.1
  case isFalse h => exact Buyer.concession_le_budget _ _

theorem Buyer.respond_accept_le (choice : ℕ → Fin 3)
    (context : NegotiationContext) (seller_price : ℕ) (seller_message : Msg)
    (h : (Buyer.respond_to_seller_offer choice context seller_price
      seller_message).1 = DealStatus.accepted) :
    seller_price ≤ context.your_budget := by
  unfold Buyer.respond_to_seller_offer at h
  split at h
  case isTrue hc => exact Buyer.evaluate_batna_budget _ _ hc.1
  case isFalse hc => exact absurd h (by simp)

theorem Buyer.opening_le (context : NegotiationContext) :
    (Buyer.generate_opening_offer context).1 ≤ context.your_budget :=
  min_le_right _ _

theorem buyer_turn_offer_le (choice : ℕ → Fin 3) (round_num : ℕ)
    (context : NegotiationContext) (seller_price : ℕ) (seller_msg : Msg) :
    (buyer_turn choice round_num context seller_price seller_msg).2.1 ≤
      context.your_budget := by
  unfold buyer_turn
  split
  · exact Buyer.opening_le context
  · exact Buyer.respond_offer_le _ _ _ _

theorem buyer_turn_accept_le (choice : ℕ → Fin 3) (round_num : ℕ)
    (context : NegotiationContext) (seller_price : ℕ) (seller_msg : Msg)
    (h : (buyer_turn choice round_num context seller_price seller_msg).1 =
      DealStatus.accepted) :
    seller_price ≤ context.your_budget := by
  unfold buyer_turn at h
  split at h
  · exact absurd h (by simp)
  · exact Buyer.respond_accept_le _ _ _ _ h

/-! Driver loop lemmas -/

theorem runLoop_budget (choice : ℕ → Fin 3) (seller_min : ℕ) :
    ∀ (rs : List ℕ) (context : NegotiationContext) (sp : ℕ) (sm : Msg),
      (∀ o ∈ context.your_offers, o ≤ context.your_budget) →
      (runLoop choice seller_min rs context sp sm).1.your_budget =
          context.your_budget ∧
        (∀ o ∈ (runLoop choice seller_min rs context sp sm).1.your_offers,
          o ≤ context.your_budget) ∧
        (∀ v, (runLoop choice seller_min rs context sp sm).2.2 = some v →
          v ≤ context.your_budget) := by
  intro rs
  induction rs with
  | nil =>
    intro context sp sm h
    refine ⟨rfl, h, ?_⟩
    intro v hv
    simp [runLoop] at hv
  | cons round_num rest ih =>
    intro context sp sm h
    have hmem : ∀ o ∈ context.your_offers ++
        [(buyer_turn choice round_num
          { context with current_round := round_num + 1 } sp sm).2.1],
        o ≤ context.your_budget := by
      intro o ho
      rcases List.mem_append.mp ho with h1 | h2
      · exact h o h1
      · rw [List.mem_singleton] at h2
        subst h2
        exact buyer_turn_offer_le choice round_num
          { context with current_round := round_num + 1 } sp sm
    simp only [runLoop]
    split
    case isTrue hacc =>
      refine ⟨rfl, hmem, ?_⟩
      intro v hv
      rw [Option.some_inj] at hv
      subst hv
      exact buyer_turn_accept_le choice round_num
        { context with current_round := round_num + 1 } sp sm hacc
    case isFalse hacc =>
      split
      case isTrue hsell =>
        refine ⟨rfl, hmem, ?_⟩
        intro v hv
        rw [Option.some_inj] at hv
        subst hv
        exact buyer_turn_offer_le choice round_num
          { context with current_round := round_num + 1 } sp sm
      case isFalse hsell =>
        exact ih _ _ _ hmem

theorem runLoop_final_isSome (choice : ℕ → Fin 3) (seller_min : ℕ) :
    ∀ (rs : List ℕ) (context : NegotiationContext) (sp : ℕ) (sm : Msg),
      (runLoop choice seller_min rs context sp sm).2.2.isSome =
        (runLoop choice seller_min rs context sp sm).2.1 := by
  intro rs
  induction rs with
  | nil => intro context sp sm; rfl
  | cons round_num rest ih =>
    intro context sp sm
    simp only [runLoop]
    split
    · rfl
    · split
      · rfl
      · exact ih _ _ _

theorem runLoop_round_exists (choice : ℕ → Fin 3) (seller_min : ℕ) :
    ∀ (rs : List ℕ) (context : NegotiationContext) (sp : ℕ) (sm : Msg),
      rs ≠ [] →
      ∃ r ∈ rs, (runLoop choice seller_min rs context sp sm).1.current_round =
        r + 1 := by
  intro rs
  induction rs with
  | nil => intro context sp sm h; exact absurd rfl h
  | cons round_num rest ih =>
    intro context sp sm _
    simp only [runLoop]
    split
    · exact ⟨round_num, List.mem_cons_self _ _, rfl⟩
    · split
      · exact ⟨round_num, List.mem_cons_self _ _, rfl⟩
      · rcases Decidable.em (rest = []) with hnil | hne
        · subst hnil
          exact ⟨round_num, List.mem_cons_self _ _, rfl⟩
        · obtain ⟨r, hr, hround⟩ := ih _ _ _ hne
          exact ⟨r, List.mem_cons_of_mem _ hr, hround⟩

theorem runLoop_timeout_round (choice : ℕ → Fin 3) (seller_min : ℕ) :
    ∀ (rs : List ℕ) (context : NegotiationContext) (sp : ℕ) (sm : Msg),
      rs ≠ [] →
      (runLoop choice seller_min rs context sp sm).2.1 = false →
      (runLoop choice seller_min rs context sp sm).1.current_round =
        rs.getLast?.getD 0 + 1 := by
  intro rs
  induction rs with
  | nil => intro context sp sm h; exact absurd rfl h
  | cons round_num rest ih =>
    intro context sp sm _ hdeal
    rcases Decidable.em (rest = []) with hnil | hne
    · subst hnil
      simp only [runLoop] at hdeal ⊢
      split
      case isTrue hacc => rw [if_pos hacc] at hdeal; exact absurd hdeal (by simp)
      case isFalse hacc =>
        rw [if_neg hacc] at hdeal
        split
        case isTrue hsell => rw [if_pos hsell] at hdeal; exact absurd hdeal (by simp)
        case isFalse hsell => rfl
    · have hlast : (round_num :: rest).getLast? = rest.getLast? := by
        cases rest with
        | nil => exact absurd rfl hne
        | cons b l => exact List.getLast?_cons_cons
      rw [hlast]
      simp only [runLoop] at hdeal ⊢
      split
      case isTrue hacc => rw [if_pos hacc] at hdeal; exact absurd hdeal (by simp)
      case isFalse hacc =>
        rw [if_neg hacc] at hdeal
        split
        case isTrue hsell => rw [if_pos hsell] at hdeal; exact absurd hdeal (by simp)
        case isFalse hsell =>
          rw [if_neg hsell] at hdeal
          exact ih _ _ _ hne hdeal

/-! Message-independence of the numeric protocol (for outcome
determinism): two contexts agreeing on everything except the message log
drive the loop to the same numeric outcome. -/

theorem Buyer.evaluate_batna_core (c1 c2 : NegotiationContext)
    (seller_price : ℕ) (hp : c1.product = c2.product)
    (hb : c1.your_budget = c2.your_budget) :
    Buyer.evaluate_batna c1 seller_price =
      Buyer.evaluate_batna c2 seller_price := by
  unfold Buyer.evaluate_batna
  rw [hp, hb]

theorem Buyer.concession_core (c1 c2 : NegotiationContext)
    (seller_price : ℕ) (hb : c1.your_budget = c2.your_budget)
    (hr : c1.current_round = c2.current_round)
    (hy : c1.your_offers = c2.your_offers) :
    Buyer.concession_pattern c1 seller_price =
      Buyer.concession_pattern c2 seller_price := by
  unfold Buyer.concession_pattern
  rw [hb, hr, hy]

theorem buyer_turn_core (ch1 ch2 : ℕ → Fin 3) (round_num : ℕ)
    (c1 c2 : NegotiationContext) (sp : ℕ) (sm1 sm2 : Msg)
    (h : CoreEq c1 c2) :
    (buyer_turn ch1 round_num c1 sp sm1).1 =
        (buyer_turn ch2 round_num c2 sp sm2).1 ∧
      (buyer_turn ch1 round_num c1 sp sm1).2.1 =
        (buyer_turn ch2 round_num c2 sp sm2).2.1 := by
  obtain ⟨hp, hb, hr, hs, hy⟩ := h
  unfold buyer_turn
  split
  · unfold Buyer.generate_opening_offer Buyer.anchor_opening_offer
    rw [hp, hb]
    exact ⟨rfl, rfl⟩
  · unfold Buyer.respond_to_seller_offer
    rw [Buyer.evaluate_batna_core c1 c2 sp hp hb,
      Buyer.concession_core c1 c2 sp hb hr hy, hp]
    split
    · exact ⟨rfl, rfl⟩
    · exact ⟨rfl, rfl⟩

set_option maxRecDepth 2000 in
theorem runLoop_core (ch1 ch2 : ℕ → Fin 3) (seller_min : ℕ) :
    ∀ (rs : List ℕ) (c1 c2 : NegotiationContext) (sp : ℕ) (sm1 sm2 : Msg),
      CoreEq c1 c2 →
      CoreEq (runLoop ch1 seller_min rs c1 sp sm1).1
          (runLoop ch2 seller_min rs c2 sp sm2).1 ∧
        (runLoop ch1 seller_min rs c1 sp sm1).2 =
          (runLoop ch2 seller_min rs c2 sp sm2).2 := by
  intro rs
  induction rs with
  | nil => intro c1 c2 sp sm1 sm2 h; exact ⟨h, rfl⟩
  | cons round_num rest ih =>
    intro c1 c2 sp sm1 sm2 h
    have h1 : CoreEq { c1 with current_round := round_num + 1 }
        { c2 with current_round := round_num + 1 } :=
      ⟨h.1, h.2.1, rfl, h.2.2.2.1, h.2.2.2.2⟩
    simp only [runLoop]
    set bt1 := buyer_turn ch1 round_num
      { c1 with current_round := round_num + 1 } sp sm1 with hb1
    set bt2 := buyer_turn ch2 round_num
      { c2 with current_round := round_num + 1 } sp sm2 with hb2
    have hbt : bt1.1 = bt2.1 ∧ bt1.2.1 = bt2.2.1 := by
      rw [hb1, hb2]
      exact buyer_turn_core ch1 ch2 round_num _ _ sp sm1 sm2 h1
    clear hb1 hb2
    clear_value bt1 bt2
    rcases Decidable.em (bt1.1 = DealStatus.accepted) with hacc | hacc
    · rw [if_pos hacc, if_pos (hbt.1 ▸ hacc)]
      refine ⟨⟨h.1, h.2.1, rfl, h.2.2.2.1, ?_⟩, rfl⟩
      show c1.your_offers ++ [bt1.2.1] = c2.your_offers ++ [bt2.2.1]
      rw [hbt.2, h.2.2.2.2]
    · have hacc2 : ¬(bt2.1 = DealStatus.accepted) := by
        rw [← hbt.1]; exact hacc
      rw [if_neg hacc, if_neg hacc2]
      set sr1 := MockSellerAgent.respond_to_buyer seller_min bt1.2.1 round_num
        with hs1
      set sr2 := MockSellerAgent.respond_to_buyer seller_min bt2.2.1 round_num
        with hs2
      have hsr : sr1 = sr2 := by rw [hs1, hs2, hbt.2]
      clear hs1 hs2
      clear_value sr1 sr2
      rcases Decidable.em (sr1.2.2 = true) with hsell | hsell
      · have hsell2 : sr2.2.2 = true := by rw [← hsr]; exact hsell
        rw [if_pos hsell, if_pos hsell2]
        refine ⟨⟨h.1, h.2.1, rfl, h.2.2.2.1, ?_⟩, ?_⟩
        · show c1.your_offers ++ [bt1.2.1] = c2.your_offers ++ [bt2.2.1]
          rw [hbt.2, h.2.2.2.2]
        · show (true, some bt1.2.1) = (true, some bt2.2.1)
          rw [hbt.2]
      · have hsell2 : ¬(sr2.2.2 = true) := by rw [← hsr]; exact hsell
        rw [if_neg hsell, if_neg hsell2, ← hsr, ← hbt.2]
        apply ih
        exact ⟨h.1, h.2.1, rfl, by rw [h.2.2.2.1], by rw [h.2.2.2.2]⟩

/-! Session-level lemmas -/

theorem runSession_def (choice : ℕ → Fin 3) (product : Product)
    (buyer_budget seller_min : ℕ) :
    runSession choice product buyer_budget seller_min =
      runLoop choice seller_min (List.range 10)
        { product := product, your_budget := buyer_budget, current_round := 0,
          seller_offers := [(MockSellerAgent.get_opening_price product).1],
          your_offers := [],
          messages := [("seller", (MockSellerAgent.get_opening_price product).2)] }
        (MockSellerAgent.get_opening_price product).1
        (MockSellerAgent.get_opening_price product).2 := rfl

theorem runSession_budget (choice : ℕ → Fin 3) (product : Product)
    (buyer_budget seller_min : ℕ) :
    (∀ o ∈ (runSession choice product buyer_budget seller_min).1.your_offers,
      o ≤ buyer_budget) ∧
    (∀ v, (runSession choice product buyer_budget seller_min).2.2 = some v →
      v ≤ buyer_budget) := by
  rw [runSession_def]
  have h := runLoop_budget choice seller_min (List.range 10)
    { product := product, your_budget := buyer_budget, current_round := 0,
      seller_offers := [(MockSellerAgent.get_opening_price product).1],
      your_offers := [],
      messages := [("seller", (MockSellerAgent.get_opening_price product).2)] }
    (MockSellerAgent.get_opening_price product).1
    (MockSellerAgent.get_opening_price product).2
    (by intro o ho; simp at ho)
  exact ⟨h.2.1, h.2.2⟩

theorem runSession_final_isSome (choice : ℕ → Fin 3) (product : Product)
    (buyer_budget seller_min : ℕ) :
    (runSession choice product buyer_budget seller_min).2.2.isSome =
      (runSession choice product buyer_budget seller_min).2.1 := by
  rw [runSession_def]
  exact runLoop_final_isSome _ _ _ _ _ _

theorem runSession_round_mem (choice : ℕ → Fin 3) (product : Product)
    (buyer_budget seller_min : ℕ) :
    ∃ r ∈ List.range 10,
      (runSession choice product buyer_budget seller_min).1.current_round =
        r + 1 := by
  rw [runSession_def]
  exact runLoop_round_exists _ _ _ _ _ _ (by decide)

theorem runSession_timeout (choice : ℕ → Fin 3) (product : Product)
    (buyer_budget seller_min : ℕ)
    (h : (runSession choice product buyer_budget seller_min).2.1 = false) :
    (runSession choice product buyer_budget seller_min).1.current_round = 10 := by
  rw [runSession_def] at h ⊢
  have h2 := runLoop_timeout_round choice seller_min (List.range 10) _ _ _
    (by decide) h
  rw [h2]
  decide

theorem runSession_core (product : Product) (buyer_budget seller_min : ℕ)
    (ch1 ch2 : ℕ → Fin 3) :
    CoreEq (runSession ch1 product buyer_budget seller_min).1
        (runSession ch2 product buyer_budget seller_min).1 ∧
      (runSession ch1 product buyer_budget seller_min).2 =
        (runSession ch2 product buyer_budget seller_min).2 := by
  simp only [runSession_def]
  exact runLoop_core ch1 ch2 seller_min (List.range 10) _ _ _ _ _
    ⟨rfl, rfl, rfl, rfl, rfl⟩

/-! Claim theorems -/

/-- C1: Budget invariant.  In every session run by `run_negotiation_test`
with the deterministic buyer, every offer appended to the buyer offer
history is at most the configured budget, and the final price of any
accepted deal (whether the buyer accepted the seller price or the seller
accepted the buyer offer) is at most the budget. -/
theorem C1_budget_invariant (choice : ℕ → Fin 3) (product : Product)
    (buyer_budget seller_min : ℕ) :
    (∀ o ∈ (runSession choice product buyer_budget seller_min).1.your_offers,
      o ≤ buyer_budget) ∧
    (∀ v, (run_negotiation_test choice product buyer_budget
        seller_min).final_price = some v → v ≤ buyer_budget) :=
  runSession_budget choice product buyer_budget seller_min

/-- Witness for C1 at scenario A (market 180000, budget 216000, seller
minimum 144000): the accepted price 144000 is in the offer history and is
within the budget. -/
theorem C1_budget_invariant_witness :
    144000 ∈ (runSession chZero (sampleProduct 180000) 216000
      144000).1.your_offers ∧ 144000 ≤ 216000 :=
  ⟨by decide,
    (C1_budget_invariant chZero (sampleProduct 180000) 216000 144000).1
      144000 (by decide)⟩

/-- C3: Round cap and timeout semantics.  Every session runs between 1 and
10 rounds, the final price is present exactly when a deal was made, and a
session in which neither party accepts ends after exactly 10 rounds with
`deal_made` false and `final_price` absent, returned as an ordinary result
record. -/
theorem C3_round_cap_timeout (choice : ℕ → Fin 3) (product : Product)
    (buyer_budget seller_min : ℕ) :
    (1 ≤ (run_negotiation_test choice product buyer_budget seller_min).rounds ∧
      (run_negotiation_test choice product buyer_budget seller_min).rounds ≤ 10) ∧
    (run_negotiation_test choice product buyer_budget
        seller_min).final_price.isSome =
      (run_negotiation_test choice product buyer_budget seller_min).deal_made ∧
    ((run_negotiation_test choice product buyer_budget seller_min).deal_made =
        false →
      (run_negotiation_test choice product buyer_budget
          seller_min).final_price = none ∧
        (run_negotiation_test choice product buyer_budget
          seller_min).rounds = 10) := by
  refine ⟨?_, ?_, ?_⟩
  · obtain ⟨r, hr, hround⟩ :=
      runSession_round_mem choice product buyer_budget seller_min
    rw [List.mem_range] at hr
    show 1 ≤ (runSession choice product buyer_budget
        seller_min).1.current_round ∧
      (runSession choice product buyer_budget seller_min).1.current_round ≤ 10
    rw [hround]
    omega
  · exact runSession_final_isSome choice product buyer_budget seller_min
  · intro hdeal
    have hdeal2 : (runSession choice product buyer_budget seller_min).2.1 =
        false := hdeal
    constructor
    · show (runSession choice product buyer_budget seller_min).2.2 = none
      have h2 := runSession_final_isSome choice product buyer_budget seller_min
      rw [hdeal2] at h2
      cases hopt : (runSession choice product buyer_budget seller_min).2.2 with
      | none => rfl
      | some v => rw [hopt] at h2; simp at h2
    · exact runSession_timeout choice product buyer_budget seller_min hdeal2

/-- Witness for C3: with market 100, budget 10 and seller minimum 100
neither party ever accepts, and the theorem yields the timeout outcome:
no final price and exactly 10 rounds. -/
theorem C3_round_cap_timeout_witness :
    (run_negotiation_test chZero (sampleProduct 100) 10 100).final_price =
        none ∧
      (run_negotiation_test chZero (sampleProduct 100) 10 100).rounds = 10 :=
  (C3_round_cap_timeout chZero (sampleProduct 100) 10 100).2.2 (by decide)

/-- C8 (amended): `run_negotiation_test` performs no configuration
validation: for every budget (including 0) and every market price and
seller minimum (including 0), the session is not rejected — the round loop
runs (at least one round is executed) and a result record is returned. -/
theorem C8_no_validation (choice : ℕ → Fin 3) (product : Product)
    (buyer_budget seller_min : ℕ) :
    1 ≤ (run_negotiation_test choice product buyer_budget seller_min).rounds := by
  obtain ⟨r, hr, hround⟩ :=
    runSession_round_mem choice product buyer_budget seller_min
  show 1 ≤ (runSession choice product buyer_budget seller_min).1.current_round
  rw [hround]
  omega

/-- Counterexample for C8 as stated: a session configured with buyer budget
0 (budget ≤ 0) is not rejected before any negotiation round starts; it runs
all 10 rounds and produces an ordinary result record (with no deal), and
the conversation contains the exchanged opening offer. -/
theorem C8_counterexample :
    (run_negotiation_test chZero (sampleProduct 100) 0 10).rounds = 10 ∧
      (run_negotiation_test chZero (sampleProduct 100) 0 10).deal_made =
        false ∧
      1 ≤ (run_negotiation_test chZero (sampleProduct 100) 0
        10).conversation.length := by
  refine ⟨by decide, by decide, ?_⟩
  decide

/-- C10: Outcome determinism for the deterministic buyer agent.  The
ambient randomness (`random.choice` in `mirror_and_frame`, modelled by the
choice stream) influences only message text: any two runs with the same
product, budget and seller minimum produce identical `deal_made`,
`final_price`, `rounds`, `savings`, `savings_pct` and `below_market_pct`
values. -/
theorem C10_outcome_determinism (product : Product)
    (buyer_budget seller_min : ℕ) (ch1 ch2 : ℕ → Fin 3) :
    (run_negotiation_test ch1 product buyer_budget seller_min).deal_made =
        (run_negotiation_test ch2 product buyer_budget seller_min).deal_made ∧
      (run_negotiation_test ch1 product buyer_budget seller_min).final_price =
        (run_negotiation_test ch2 product buyer_budget seller_min).final_price ∧
      (run_negotiation_test ch1 product buyer_budget seller_min).rounds =
        (run_negotiation_test ch2 product buyer_budget seller_min).rounds ∧
      (run_negotiation_test ch1 product buyer_budget seller_min).savings =
        (run_negotiation_test ch2 product buyer_budget seller_min).savings ∧
      (run_negotiation_test ch1 product buyer_budget seller_min).savings_pct =
        (run_negotiation_test ch2 product buyer_budget seller_min).savings_pct ∧
      (run_negotiation_test ch1 product buyer_budget
          seller_min).below_market_pct =
        (run_negotiation_test ch2 product buyer_budget
          seller_min).below_market_pct := by
  obtain ⟨hc, hp⟩ := runSession_core product buyer_budget seller_min ch1 ch2
  have hd : (runSession ch1 product buyer_budget seller_min).2.1 =
      (runSession ch2 product buyer_budget seller_min).2.1 :=
    congrArg Prod.fst hp
  have hf : (runSession ch1 product buyer_budget seller_min).2.2 =
      (runSession ch2 product buyer_budget seller_min).2.2 :=
    congrArg Prod.snd hp
  refine ⟨hd, hf, hc.2.2.1, ?_, ?_, ?_⟩
  · show (if (runSession ch1 product buyer_budget seller_min).2.1 = true then
        (buyer_budget : ℤ) -
          ((runSession ch1 product buyer_budget seller_min).2.2.getD 0 : ℤ)
      else 0) =
      (if (runSession ch2 product buyer_budget seller_min).2.1 = true then
        (buyer_budget : ℤ) -
          ((runSession ch2 product buyer_budget seller_min).2.2.getD 0 : ℤ)
      else 0)
    rw [hd, hf]
  · show (if (runSession ch1 product buyer_budget seller_min).2.1 = true then
        ((buyer_budget : ℚ) -
          ((runSession ch1 product buyer_budget seller_min).2.2.getD 0 : ℚ))
          / (buyer_budget : ℚ) * 100
      else 0) =
      (if (runSession ch2 product buyer_budget seller_min).2.1 = true then
        ((buyer_budget : ℚ) -
          ((runSession ch2 product buyer_budget seller_min).2.2.getD 0 : ℚ))
          / (buyer_budget : ℚ) * 100
      else 0)
    rw [hd, hf]
  · show (if (runSession ch1 product buyer_budget seller_min).2.1 = true then
        ((product.base_market_price : ℚ) -
          ((runSession ch1 product buyer_budget seller_min).2.2.getD 0 : ℚ))
          / (product.base_market_price : ℚ) * 100
      else 0) =
      (if (runSession ch2 product buyer_budget seller_min).2.1 = true then
        ((product.base_market_price : ℚ) -
          ((runSession ch2 product buyer_budget seller_min).2.2.getD 0 : ℚ))
          / (product.base_market_price : ℚ) * 100
      else 0)
    rw [hd, hf]

/-- C2 (amended): both implementations return `ACCEPTED` only if the seller
price is within budget; the deterministic agent additionally only if the
price is at most 90 percent of market (in every round); the team agent
additionally only if the price is at most 90 percent of market before
round 8 and at most market in rounds 8 and 9, while from round 10 on its
final fallback may accept any price within budget. -/
theorem C2_acceptance_amended :
    (∀ (choice : ℕ → Fin 3) (context : NegotiationContext)
        (seller_price : ℕ) (seller_message : Msg),
        (Buyer.respond_to_seller_offer choice context seller_price
          seller_message).1 = DealStatus.accepted →
        seller_price ≤ context.your_budget ∧
          leMul seller_price context.product.base_market_price lit_0_9 =
            true) ∧
      (∀ (context : NegotiationContext) (seller_price : ℕ) (text : ChatOut)
        (out : DealStatus × ℕ × Msg),
        Team.respond_to_seller_offer context seller_price (some text) =
          Except.ok out →
        out.1 = DealStatus.accepted →
        seller_price ≤ context.your_budget ∧
          (context.current_round < 8 →
            leMul seller_price context.product.base_market_price lit_0_9 =
              true) ∧
          (8 ≤ context.current_round → context.current_round < 10 →
            seller_price ≤ context.product.base_market_price)) := by
  constructor
  · intro choice context seller_price seller_message h
    unfold Buyer.respond_to_seller_offer at h
    split at h
    case isTrue hc => exact ⟨Buyer.evaluate_batna_budget _ _ hc.1, hc.2⟩
    case isFalse hc => exact absurd h (by simp)
  · intro context seller_price text out hok hacc
    simp only [Team.respond_to_seller_offer] at hok
    split at hok
    · rename_i hc
      refine ⟨hc.1, ?_, ?_⟩
      · intro hlt
        rcases hc.2 with ⟨_, hle⟩ | ⟨hge, _⟩
        · exact hle
        · omega
      · intro hge hlt
        rcases hc.2 with ⟨hlt8, _⟩ | ⟨_, hle⟩
        · omega
        · exact hle
    · rename_i hc
      split at hok
      · rename_i hc2
        refine ⟨hc2.2, ?_, ?_⟩
        · intro hlt; omega
        · intro hge hlt; omega
      · rename_i hc2
        injection hok with h3
        rw [← h3] at hacc
        simp at hacc

/-- Witness for the C2 amended theorem: the deterministic agent accepts
80000 with market 100000 and budget 100000 in round 2, and the conclusion
holds there. -/
theorem C2_acceptance_witness :
    80000 ≤ ctxW2.your_budget ∧
      leMul 80000 ctxW2.product.base_market_price lit_0_9 = true :=
  C2_acceptance_amended.1 chZero ctxW2 80000 (Msg.seller_come_down 80000)
    (by decide)

/-- Counterexample to C2 as stated: at round 10 (a late round) with market
100000 and budget 150000 the team agent accepts the seller price 120000,
which exceeds 100 percent of the base market price, so acceptance is not
bounded by the graduated threshold of at most market in late rounds. -/
theorem C2_counterexample :
    Team.respond_to_seller_offer ctxC2 120000 (some ⟨none, none⟩) =
        Except.ok (DealStatus.accepted, 120000,
          Msg.team_fallback_accept 120000) ∧
      ctxC2.product.base_market_price < 120000 ∧
      8 ≤ ctxC2.current_round :=
  ⟨by decide, by decide, by decide⟩

/-- C4 (amended): for the deterministic agent, whenever
`respond_to_seller_offer` returns `ONGOING` for a positive seller price,
the counter offer is at most the budget and strictly less than the seller
price (it can however be 0, and the team implementation can exceed both
bounds through its unclamped parse fallback). -/
theorem C4_counter_bounds_amended (choice : ℕ → Fin 3)
    (context : NegotiationContext) (seller_price : ℕ) (seller_message : Msg)
    (hpos : 1 ≤ seller_price)
    (h : (Buyer.respond_to_seller_offer choice context seller_price
      seller_message).1 = DealStatus.ongoing) :
    (Buyer.respond_to_seller_offer choice context seller_price
        seller_message).2.1 ≤ context.your_budget ∧
      (Buyer.respond_to_seller_offer choice context seller_price
        seller_message).2.1 < seller_price := by
  by_cases hc : Buyer.evaluate_batna context seller_price = true ∧
      leMul seller_price context.product.base_market_price lit_0_9 = true
  · unfold Buyer.respond_to_seller_offer at h
    rw [if_pos hc] at h
    simp at h
  · constructor
    · exact Buyer.respond_offer_le choice context seller_price seller_message
    · unfold Buyer.respond_to_seller_offer
      rw [if_neg hc]
      exact Buyer.concession_lt context seller_price hpos

/-- Witness for the C4 amended theorem: ongoing counter at market 180000,
budget 216000, round 2 against seller price 170000. -/
theorem C4_counter_bounds_witness :
    1 ≤ 170000 ∧
      ((Buyer.respond_to_seller_offer chZero ctxW4 170000
          (Msg.seller_come_down 170000)).2.1 ≤ ctxW4.your_budget ∧
        (Buyer.respond_to_seller_offer chZero ctxW4 170000
          (Msg.seller_come_down 170000)).2.1 < 170000) :=
  ⟨by decide, C4_counter_bounds_amended chZero ctxW4 170000
    (Msg.seller_come_down 170000) (by decide) (by decide)⟩

/-- Counterexample to C4 as stated: the team implementation with an
unparsable chat response, market 200000 and budget 100000 returns `ONGOING`
with counter 180000 (= `int(200000 * 0.9)`, the unclamped fallback), which
exceeds the budget and the countered seller price 150000. -/
theorem C4_counterexample :
    Team.respond_to_seller_offer ctxC4 150000 (some ⟨none, none⟩) =
        Except.ok (DealStatus.ongoing, 180000, Msg.team_text none) ∧
      ctxC4.your_budget < 180000 ∧ 150000 < 180000 :=
  ⟨by decide, by decide, by decide⟩

/-- C5: Seller response formula.  `respond_to_buyer` accepts exactly when
the buyer offer is at least `min_price * 1.1` (in which case the returned
price is the buyer offer); otherwise it counters with
`max(min_price, int(buyer_offer * g))` where `g` is 1.05 from loop index 8
on and 1.15 before, so the counter never falls below `min_price`. -/
theorem C5_seller_formula (min_price buyer_offer round_num : ℕ) :
    ((MockSellerAgent.respond_to_buyer min_price buyer_offer round_num).2.2 =
        true ↔ geMul buyer_offer min_price lit_1_1 = true) ∧
      ((MockSellerAgent.respond_to_buyer min_price buyer_offer
          round_num).2.2 = true →
        (MockSellerAgent.respond_to_buyer min_price buyer_offer
          round_num).1 = buyer_offer) ∧
      ((MockSellerAgent.respond_to_buyer min_price buyer_offer
          round_num).2.2 = false →
        (MockSellerAgent.respond_to_buyer min_price buyer_offer
            round_num).1 =
            max min_price (pyIntMul buyer_offer
              (if 8 ≤ round_num then lit_1_05 else lit_1_15)) ∧
          min_price ≤ (MockSellerAgent.respond_to_buyer min_price
            buyer_offer round_num).1) := by
  unfold MockSellerAgent.respond_to_buyer
  split
  case isTrue hc =>
    exact ⟨⟨fun _ => hc, fun _ => rfl⟩, fun _ => rfl,
      fun hfalse => absurd hfalse (by simp)⟩
  case isFalse hc =>
    split
    case isTrue h8 =>
      refine ⟨⟨fun habs => absurd habs (by simp), fun hg => absurd hg hc⟩,
        fun habs => absurd habs (by simp), fun _ => ⟨?_, le_max_left _ _⟩⟩
      rfl
    case isFalse h8 =>
      refine ⟨⟨fun habs => absurd habs (by simp), fun hg => absurd hg hc⟩,
        fun habs => absurd habs (by simp), fun _ => ⟨?_, le_max_left _ _⟩⟩
      rfl

/-- Witness for C5: with seller minimum 144000, buyer offer 117000 and loop
index 0 the seller does not accept and counters with the formula value. -/
theorem C5_seller_formula_witness :
    (MockSellerAgent.respond_to_buyer 144000 117000 0).1 =
        max 144000 (pyIntMul 117000 (if 8 ≤ 0 then lit_1_05 else lit_1_15)) ∧
      144000 ≤ (MockSellerAgent.respond_to_buyer 144000 117000 0).1 :=
  (C5_seller_formula 144000 117000 0).2.2 (by decide)

/-- C6 (amended): the team implementation accepts any affordable seller
price at round 10 or later, provided the external chat call returns; the
deterministic implementation has no such final-round fallback (see the
counterexample) and can leave an affordable final-round offer
unaccepted. -/
theorem C6_final_round_amended (context : NegotiationContext)
    (seller_price : ℕ) (text : ChatOut)
    (hround : 10 ≤ context.current_round)
    (hbudget : seller_price ≤ context.your_budget) :
    ∃ m : Msg, Team.respond_to_seller_offer context seller_price (some text) =
      Except.ok (DealStatus.accepted, seller_price, m) := by
  simp only [Team.respond_to_seller_offer]
  split
  · exact ⟨Msg.team_accept seller_price, rfl⟩
  · split
    · exact ⟨Msg.team_fallback_accept seller_price, rfl⟩
    · rename_i hc2
      exact absurd ⟨hround, hbudget⟩ hc2

/-- Witness for the C6 amended theorem: at round 10 with budget 150000 the
team agent accepts the affordable price 140000. -/
theorem C6_final_round_witness :
    ∃ m : Msg, Team.respond_to_seller_offer ctxW6 140000 (some ⟨none, none⟩) =
      Except.ok (DealStatus.accepted, 140000, m) :=
  C6_final_round_amended ctxW6 140000 ⟨none, none⟩ (by decide) (by decide)

/-- Counterexample to C6 as stated: the deterministic buyer at round 10
with seller price 100000 equal to its budget (and to the market price)
returns `ONGOING`, not `ACCEPTED`, although the offer is affordable — so
the unconditional final-round accept-if-affordable fallback does not hold
for that implementation. -/
theorem C6_counterexample :
    (Buyer.respond_to_seller_offer chZero ctxC6 100000
        (Msg.seller_final_offer 100000)).1 = DealStatus.ongoing ∧
      ctxC6.current_round = 10 ∧ 100000 ≤ ctxC6.your_budget :=
  ⟨by decide, by decide, by decide⟩

/-- C7 (amended): when the external chat call returns (any output), the
team agent never fails: the accept-or-counter status is independent of the
returned text, a missing counter extraction falls back to the local
deterministic counter `int(market * 0.9)`, and a missing offer extraction
falls back to the local deterministic opening `int(market * 0.8)`.  When
the call itself raises, however, the exception propagates (see the
counterexample), so the decision does depend on the call not raising. -/
theorem C7_fallback_amended :
    (∀ (context : NegotiationContext) (seller_price : ℕ) (t1 t2 : ChatOut),
        (Team.respond_to_seller_offer context seller_price (some t1)).map
            (fun o => o.1) =
          (Team.respond_to_seller_offer context seller_price (some t2)).map
            (fun o => o.1)) ∧
      (∀ (context : NegotiationContext) (seller_price : ℕ) (text : ChatOut),
        ∃ out, Team.respond_to_seller_offer context seller_price
          (some text) = Except.ok out) ∧
      (∀ (context : NegotiationContext) (seller_price : ℕ) (text : ChatOut)
        (out : DealStatus × ℕ × Msg), text.amount = none →
        Team.respond_to_seller_offer context seller_price (some text) =
          Except.ok out →
        out.1 = DealStatus.ongoing →
        out.2.1 = pyIntMul context.product.base_market_price lit_0_9) ∧
      (∀ (context : NegotiationContext) (text : ChatOut) (out : ℕ × Msg),
        text.amount = none →
        Team.generate_opening_offer context (some text) = Except.ok out →
        out.1 = pyIntMul context.product.base_market_price lit_0_8) := by
  refine ⟨?_, ?_, ?_, ?_⟩
  · intro context seller_price t1 t2
    simp only [Team.respond_to_seller_offer]
    split
    · rfl
    · split
      · rfl
      · rfl
  · intro context seller_price text
    simp only [Team.respond_to_seller_offer]
    split
    · exact ⟨_, rfl⟩
    · split
      · exact ⟨_, rfl⟩
      · exact ⟨_, rfl⟩
  · intro context seller_price text out hnone hok hongoing
    simp only [Team.respond_to_seller_offer] at hok
    split at hok
    · rename_i hc
      injection hok with h3
      rw [← h3] at hongoing
      simp at hongoing
    · split at hok
      · rename_i hc2
        injection hok with h3
        rw [← h3] at hongoing
        simp at hongoing
      · rename_i hc2
        injection hok with h3
        rw [← h3]
        rw [hnone]
  · intro context text out hnone hok
    simp only [Team.generate_opening_offer] at hok
    injection hok with h3
    rw [← h3]
    rw [hnone]

/-- Counterexample to C7 as stated: when the external chat call raises
(service unavailable or errored), the exception propagates out of both
agent entry points — the decision is not produced by a local fallback and
the failure does surface. -/
theorem C7_counterexample :
    Team.respond_to_seller_offer ctxC7 50000 none = Except.error () ∧
      Team.generate_opening_offer ctxC7 none = Except.error () :=
  ⟨rfl, rfl⟩

/-- Witness for the C7 amended theorem: at market 200000 with an
unparsable response the ongoing counter is the deterministic local
fallback 180000 = `int(200000 * 0.9)`. -/
theorem C7_fallback_witness :
    (DealStatus.ongoing, 180000, Msg.team_text (none : Option String)).2.1 =
      pyIntMul ctxC7.product.base_market_price lit_0_9 :=
  C7_fallback_amended.2.2.1 ctxC7 250000 ⟨none, none⟩
    (DealStatus.ongoing, 180000, Msg.team_text none) rfl (by decide) rfl

/-- C9: Scenario A (quick agreement).  With market price 180000, budget
216000 and seller minimum 144000 the deterministic buyer reaches a deal in
2 rounds at final price 144000, which lies between the buyer early offer
117000 and seller minimum times 1.1 = 158400. -/
theorem C9_scenario_a :
    (run_negotiation_test chZero (sampleProduct 180000) 216000
        144000).deal_made = true ∧
      (run_negotiation_test chZero (sampleProduct 180000) 216000
        144000).rounds = 2 ∧
      (run_negotiation_test chZero (sampleProduct 180000) 216000
        144000).final_price = some 144000 ∧
      (runSession chZero (sampleProduct 180000) 216000
        144000).1.your_offers = [117000, 144000] ∧
      117000 ≤ 144000 ∧ 144000 ≤ 158400 :=
  ⟨by decide, by decide, by decide, by decide, by decide, by decide⟩
